import Mathlib

/-
  Verification of the Figma scene-tree-to-React compiler.

  This file shallowly embeds the compiler code of the repository and proves
  or refutes the specification claims about it.  The embedded sources are:
  the Express server in server/index.js (generateElement / getCommonStyles /
  escapeJSXText / generateComponent / extractFontsFromData / isSystemFont),
  the MCP server variant (generateComponentCode / generateNodeComponent /
  getBackgroundStyle / getBorderStyle / getEffectStyles / toCamelCase and the
  request handler), the semantic classifier detectComponentType, and the
  plugin-side convertFontWeight.

  JavaScript numbers are modelled as exact fractions (JNum, an Int pair with
  positive denominator); JavaScript string operations used by the sources are
  re-implemented over character lists so that every definition reduces in the
  kernel.  Option models possibly-undefined fields; JS truthiness is made
  explicit by the truthy* helpers.
-/

namespace FigmaGen

/-! ## Character and string helpers -/

/-- Backslash character. -/
def chBS : Char := '\x5c'

/-- Single-quote character. -/
def chSQ : Char := '\x27'

/-- Double-quote character. -/
def chDQ : Char := '\x22'

/-- Backtick character. -/
def chBT : Char := '\x60'

/-- Dollar character. -/
def chDollar : Char := '$'

/-- Line-feed character. -/
def chLF : Char := '\x0a'

/-- Carriage-return character. -/
def chCR : Char := '\x0d'

/-- Horizontal-tab character. -/
def chTab : Char := '\x09'

/-- ASCII lowercase test, as in the JS regex class [a-z]. -/
def isAsciiLower (c : Char) : Bool := ('a' ≤ c) && (c ≤ 'z')

/-- ASCII uppercase test. -/
def isAsciiUpper (c : Char) : Bool := ('A' ≤ c) && (c ≤ 'Z')

/-- ASCII digit test. -/
def isAsciiDigit (c : Char) : Bool := ('0' ≤ c) && (c ≤ '9')

/-- Alphanumeric test, as in the JS regex class [a-zA-Z0-9]. -/
def isAlphaNumCh (c : Char) : Bool := isAsciiLower c || isAsciiUpper c || isAsciiDigit c

/-- Lower-case one ASCII character, as JS toLowerCase does on ASCII input. -/
def toLowerCh (c : Char) : Char :=
  if isAsciiUpper c then Char.ofNat (c.toNat + 32) else c

/-- Upper-case one ASCII character. -/
def toUpperCh (c : Char) : Char :=
  if isAsciiLower c then Char.ofNat (c.toNat - 32) else c

/-- Lower-case a string (ASCII), modelling JS String.prototype.toLowerCase. -/
def lowerStr (s : String) : String := String.mk (s.toList.map toLowerCh)

/-- Whitespace class of the JS regex \s (the ASCII members, which are the
    ones the embedded sources can encounter). -/
def isJsWs (c : Char) : Bool :=
  (c == ' ') || (c == chTab) || (c == chLF) || (c == chCR) || (c == '\x0b') || (c == '\x0c')

/-- Does the pattern occur at the head of the list? -/
def startsWithL : List Char → List Char → Bool
  | [], _ => true
  | _ :: _, [] => false
  | p :: ps, c :: cs => (p == c) && startsWithL ps cs

/-- Substring containment over character lists, modelling JS includes. -/
def containsL (hay pat : List Char) : Bool :=
  match hay with
  | [] => pat.isEmpty
  | _ :: rest => startsWithL pat hay || containsL rest pat

/-- Substring containment on strings, modelling JS String.prototype.includes. -/
def containsStr (hay pat : String) : Bool := containsL hay.toList pat.toList

/-- String starts-with test, modelling JS String.prototype.startsWith. -/
def startsStr (s pat : String) : Bool := startsWithL pat.toList s.toList

/-- Replace every occurrence of one character by a replacement list, the
    semantics of a global single-character JS regex replace. -/
def replaceChar (c : Char) (rep : List Char) : List Char → List Char
  | [] => []
  | x :: xs => (if x == c then rep else [x]) ++ replaceChar c rep xs

/-- Remove every occurrence of a character, as replace(/c/g, ''). -/
def removeChar (c : Char) (l : List Char) : List Char := replaceChar c [] l

/-- Collapse runs of JS whitespace to single spaces; prevWs records whether
    the previous character was inside a whitespace run.  This is the
    semantics of replace(/\s+/g, ' '). -/
def collapseWsAux (prevWs : Bool) : List Char → List Char
  | [] => []
  | c :: rest =>
    if isJsWs c then (if prevWs then [] else [' ']) ++ collapseWsAux true rest
    else c :: collapseWsAux false rest

/-- Collapse whitespace runs to single spaces (JS replace(/\s+/g, ' ')). -/
def collapseWs (l : List Char) : List Char := collapseWsAux false l

/-- Trim JS whitespace from both ends, modelling String.prototype.trim. -/
def trimL (l : List Char) : List Char :=
  ((l.dropWhile isJsWs).reverse.dropWhile isJsWs).reverse

/-- Trim a string. -/
def trimStr (s : String) : String := String.mk (trimL s.toList)

/-- Split a character list at every occurrence of a separator character,
    modelling JS String.prototype.split(',').  Always non-empty. -/
def splitOnCh (sep : Char) : List Char → List (List Char)
  | [] => [[]]
  | c :: rest =>
    let r := splitOnCh sep rest
    if c == sep then [] :: r
    else match r with
      | [] => [[c]]
      | g :: gs => (c :: g) :: gs

/-- Drop leading and trailing quote characters, the JS regex
    replace of the anchored class ['"] repeated at either end. -/
def stripEdgeQuotes (l : List Char) : List Char :=
  let isQ := fun c => (c == chSQ) || (c == chDQ)
  ((l.dropWhile isQ).reverse.dropWhile isQ).reverse

/-! ## Exact JS numbers -/

/-- An exact JavaScript number: an integer fraction n / d with d > 0
    maintained by the constructors below.  The sources only ever produce
    finite decimal values, which this represents exactly. -/
structure JNum where
  n : Int
  d : Int
deriving DecidableEq, Repr

/-- Embed an integer. -/
def jint (i : Int) : JNum := ⟨i, 1⟩

/-- Build a fraction with a positive denominator. -/
def jfrac (a b : Int) : JNum := if b < 0 then ⟨-a, -b⟩ else ⟨a, b⟩

/-- Addition. -/
def jadd (a b : JNum) : JNum := ⟨a.n * b.d + b.n * a.d, a.d * b.d⟩

/-- Subtraction. -/
def jsub (a b : JNum) : JNum := ⟨a.n * b.d - b.n * a.d, a.d * b.d⟩

/-- Multiplication. -/
def jmul (a b : JNum) : JNum := ⟨a.n * b.n, a.d * b.d⟩

/-- Negation. -/
def jneg (a : JNum) : JNum := ⟨-a.n, a.d⟩

/-- Strict order on values. -/
def jlt (a b : JNum) : Bool := a.n * b.d < b.n * a.d

/-- Value equality (the JS === on numbers). -/
def jeq (a b : JNum) : Bool := a.n * b.d == b.n * a.d

/-- Value of zero test; JS treats 0 as falsy. -/
def jisZero (a : JNum) : Bool := a.n == 0

/-- JS Math.round: floor of x + 1/2. -/
def jsRound (a : JNum) : Int := Int.fdiv (2 * a.n + a.d) (2 * a.d)

/-- Decimal digits of a natural number, most significant first; the fuel
    argument keeps the recursion structural. -/
def natDigitsAux : Nat → Nat → List Char
  | 0, _ => []
  | fuel + 1, n =>
    if n < 10 then [Char.ofNat (48 + n)]
    else natDigitsAux fuel (n / 10) ++ [Char.ofNat (48 + n % 10)]

/-- Render a natural number in decimal. -/
def natStr (n : Nat) : String := String.mk (natDigitsAux (n + 1) n)

/-- Render an integer in decimal, as JS String(int). -/
def intStr (i : Int) : String :=
  if i < 0 then ("-") ++ natStr i.natAbs else natStr i.natAbs

/-- Left-pad a digit list with zeros to a given width. -/
def padZeros (w : Nat) (l : List Char) : List Char :=
  List.replicate (w - l.length) ('0') ++ l

/-- Strip trailing zero characters. -/
def stripTrailingZeros (l : List Char) : List Char :=
  (l.reverse.dropWhile (fun c => c == '0')).reverse

/-- Render an exact JS number the way JS stringifies finite decimals: an
    integer renders with no point, otherwise the shortest decimal expansion.
    The sources only ever print decimal-representable values, and this
    renders exactly those; a non-decimal fraction falls back to a slash
    form that the embedded inputs never produce. -/
def jnumStr (a : JNum) : String :=
  let g : Int := Int.gcd a.n a.d
  let num : Int := a.n / g
  let den : Int := a.d / g
  if den == 1 then intStr num
  else
    match (List.range 40).find? (fun k => (10 ^ k : Nat) % den.natAbs == 0) with
    | some k =>
      let scale : Nat := 10 ^ k / den.natAbs
      let digits : Nat := num.natAbs * scale
      let ip : Nat := digits / 10 ^ k
      let fp : Nat := digits % 10 ^ k
      let frac := stripTrailingZeros (padZeros k (natDigitsAux (fp + 1) fp))
      (if num < 0 then ("-") else ("")) ++ natStr ip ++ (".") ++ String.mk frac
    | none => intStr num ++ ("/") ++ intStr den

/-- Interpolate a possibly-undefined number as a JS template literal does:
    undefined prints as the text undefined. -/
def jnumOptStr : Option JNum → String
  | some q => jnumStr q
  | none => ("undefined")

/-! ## JS truthiness -/

/-- Truthiness of a possibly-undefined string: undefined and the empty
    string are falsy. -/
def truthyS : Option String → Bool
  | some s => !(s == (""))
  | none => false

/-- Truthiness of a possibly-undefined number: undefined and 0 are falsy. -/
def truthyN : Option JNum → Bool
  | some q => !(jisZero q)
  | none => false

/-- Truthiness of a possibly-undefined boolean. -/
def truthyB : Option Bool → Bool
  | some b => b
  | none => false

/-! ## The scene-tree data model (the JSON the plugin sends) -/

/-- An RGB color with 0..1 channels, as extracted from Figma. -/
structure RGB where
  r : JNum
  g : JNum
  b : JNum
deriving DecidableEq, Repr

/-- One fill paint. -/
structure Fill where
  type : String := ("")
  color : Option RGB := none
  opacity : Option JNum := none
deriving DecidableEq, Repr

/-- One stroke paint. -/
structure Stroke where
  type : String := ("")
  color : Option RGB := none
  opacity : Option JNum := none
  weight : Option JNum := none
deriving DecidableEq, Repr

/-- An effect offset. -/
structure EffOffset where
  x : JNum
  y : JNum
deriving DecidableEq, Repr

/-- One effect (drop shadows are the kind the compilers consume). -/
structure Effect where
  type : String := ("")
  color : Option RGB := none
  offset : Option EffOffset := none
  radius : Option JNum := none
  visible : Option Bool := none
deriving DecidableEq, Repr

/-- A letterSpacing or lineHeight payload: either a bare JS number or an
    object with optional value and unit fields. -/
inductive NumUnit where
  | num (q : JNum)
  | obj (value : Option JNum) (unit : Option String)
deriving DecidableEq, Repr

/-- Truthiness of a NumUnit: an object is always truthy, a number is falsy
    exactly when zero. -/
def truthyNU : Option NumUnit → Bool
  | some (.num q) => !(jisZero q)
  | some (.obj _ _) => true
  | none => false

/-- The unit field of a NumUnit; reading .unit off a bare number gives
    undefined in JS. -/
def nuUnit : NumUnit → Option String
  | .num _ => none
  | .obj _ u => u

/-- The value field of a NumUnit; reading .value off a bare number gives
    undefined in JS. -/
def nuValue : NumUnit → Option JNum
  | .num _ => none
  | .obj v _ => v

/-- Is the NumUnit a bare number (the JS typeof check)? -/
def nuIsNum : NumUnit → Bool
  | .num _ => true
  | .obj _ _ => false

/-- A fontWeight payload: a number or a style-name string. -/
inductive FontWeight where
  | num (q : JNum)
  | str (s : String)
deriving DecidableEq, Repr

/-- Truthiness of a fontWeight: 0 and the empty string are falsy. -/
def truthyFW : Option FontWeight → Bool
  | some (.num q) => !(jisZero q)
  | some (.str s) => !(s == (""))
  | none => false

/-- The scalar fields of one extracted node (children live in Node). -/
structure NodeData where
  name : String := ("")
  type : String := ("")
  width : JNum := jint 0
  height : JNum := jint 0
  x : Option JNum := none
  y : Option JNum := none
  fills : List Fill := []
  strokes : List Stroke := []
  effects : List Effect := []
  opacity : Option JNum := none
  visible : Option Bool := none
  svg : Option String := none
  svgBase64 : Option String := none
  image : Option String := none
  textContent : Option String := none
  fontSize : Option JNum := none
  fontFamily : Option String := none
  fontWeight : Option FontWeight := none
  letterSpacing : Option NumUnit := none
  lineHeight : Option NumUnit := none
  textAlign : Option String := none
  textAlignHorizontal : Option String := none
  cornerRadius : Option JNum := none
  layoutMode : Option String := none
  gap : Option JNum := none
  paddingLeft : Option JNum := none
  paddingRight : Option JNum := none
  paddingTop : Option JNum := none
  paddingBottom : Option JNum := none
  rotation : Option JNum := none
deriving Repr

mutual
/-- An extracted scene-tree node: scalar data plus ordered children. -/
inductive Node where
  | node (data : NodeData) (children : NodeList)

/-- An ordered list of nodes (mutual with Node so that all recursion over
    the tree is structural). -/
inductive NodeList where
  | nil
  | cons (head : Node) (tail : NodeList)
end

/-- The scalar data of a node. -/
def Node.data : Node → NodeData
  | .node d _ => d

/-- The children of a node. -/
def Node.children : Node → NodeList
  | .node _ cs => cs

/-- Emptiness of a node list. -/
def NodeList.isNil : NodeList → Bool
  | .nil => true
  | .cons _ _ => false

/-! ## Style maps

A JS object used as a style map is an insertion-ordered association list;
assigning an existing key overwrites it in place, assigning a fresh key
appends, and delete removes the key. -/

/-- One style value: a string or a number (the only kinds the sources put
    in style objects). -/
inductive StyleVal where
  | str (s : String)
  | num (q : JNum)
deriving DecidableEq, Repr

/-- The ordered style map. -/
abbrev Styles := List (String × StyleVal)

/-- JS property assignment on an object: overwrite in place, else append. -/
def setStyle (k : String) (v : StyleVal) : Styles → Styles
  | [] => [(k, v)]
  | (k0, v0) :: rest => if k0 == k then (k, v) :: rest else (k0, v0) :: setStyle k v rest

/-- JS property read. -/
def getStyle (styles : Styles) (k : String) : Option StyleVal :=
  (styles.find? (fun e => e.1 == k)).map (fun e => e.2)

/-- JS delete of a property. -/
def delStyle (k : String) (styles : Styles) : Styles :=
  styles.filter (fun e => !(e.1 == k))

/-- Read a string-producing style with a JS || default: undefined, the
    empty string and 0 fall back to the default. -/
def styleStrOr (styles : Styles) (k dflt : String) : String :=
  match getStyle styles k with
  | some (.str s) => if s == ("") then dflt else s
  | some (.num q) => if jisZero q then dflt else jnumStr q
  | none => dflt

/-! ## server/index.js: color, font cleaning, common styles -/

/-- Color conversion of server/index.js: rgbToColor(rgb, opacity = 1).
    A missing rgb yields the text transparent; opacity below 1 selects the
    rgba form. -/
def rgbToColor (rgb : Option RGB) (opacity : Option JNum) : String :=
  match rgb with
  | none => ("transparent")
  | some c =>
    let op := opacity.getD (jint 1)
    let r := jsRound (jmul c.r (jint 255))
    let g := jsRound (jmul c.g (jint 255))
    let b := jsRound (jmul c.b (jint 255))
    if jlt op (jint 1) then
      ("rgba(") ++ intStr r ++ (", ") ++ intStr g ++ (", ") ++ intStr b ++ (", ")
        ++ jnumStr op ++ (")")
    else
      ("rgb(") ++ intStr r ++ (", ") ++ intStr g ++ (", ") ++ intStr b ++ (")")

/-- Font-name cleaning shared by extractFontsFromData and the fontFamily
    branch of getCommonStyles: strip edge quotes, drop all quotes, trim,
    keep the first comma-separated alternative, trim again. -/
def cleanFontName (s : String) : String :=
  let l := stripEdgeQuotes s.toList
  let l := removeChar chSQ l
  let l := removeChar chDQ l
  let l := trimL l
  String.mk (trimL ((splitOnCh (',') l).headD []))

/-- Leading-float parsing, the semantics of JS parseFloat on the finite
    decimal inputs the sources feed it: optional whitespace and sign, then
    digits with an optional fraction and exponent; none models NaN.  (The
    Infinity spellings JS also accepts cannot arise from font styles and are
    not modelled.) -/
def jsParseFloat (s : String) : Option JNum :=
  let l := s.toList.dropWhile isJsWs
  let sgnSplit : (Int × List Char) :=
    match l with
    | c :: rest => if c == '+' then (1, rest) else if c == '-' then (-1, rest) else (1, c :: rest)
    | [] => (1, [])
  let sgn := sgnSplit.1
  let afterSign := sgnSplit.2
  let intSplit := afterSign.span isAsciiDigit
  let ids := intSplit.1
  let afterInt := intSplit.2
  let fracSplit : (List Char × List Char) :=
    match afterInt with
    | c :: rest => if c == '.' then rest.span isAsciiDigit else ([], afterInt)
    | [] => ([], [])
  let fds := fracSplit.1
  let afterFrac := fracSplit.2
  if ids.isEmpty && fds.isEmpty then none
  else
    let digitsToNat : List Char → Nat := fun ds => ds.foldl (fun a c => a * 10 + (c.toNat - 48)) 0
    let mant : JNum := jfrac (sgn * ((digitsToNat ids) * 10 ^ fds.length + digitsToNat fds)) (10 ^ fds.length)
    let expo : Int :=
      match afterFrac with
      | e :: rest =>
        if (e == 'e') || (e == 'E') then
          let esgnSplit : (Int × List Char) :=
            match rest with
            | c :: r => if c == '+' then (1, r) else if c == '-' then (-1, r) else (1, c :: r)
            | [] => (1, [])
          let eds := (esgnSplit.2.span isAsciiDigit).1
          if eds.isEmpty then 0 else esgnSplit.1 * (digitsToNat eds : Int)
        else 0
      | [] => 0
    let scale : JNum := if 0 ≤ expo then jint (10 ^ expo.toNat) else jfrac 1 (10 ^ (1 * (-expo).toNat))
    some (jmul mant scale)

/-- Result of parseFloat(s) with a JS || fallback: NaN and 0 both fall back. -/
def parseFloatOr (s : String) (dflt : JNum) : JNum :=
  match jsParseFloat s with
  | some q => if jisZero q then dflt else q
  | none => dflt

/-- Does the text contain two consecutive whitespace characters (the JS
    regex test of backslash-s repeated at least twice)? -/
def hasTwoWs : List Char → Bool
  | a :: b :: rest => (isJsWs a && isJsWs b) || hasTwoWs (b :: rest)
  | _ => false

/-- The first visible drop shadow, as found by the effects block of
    getCommonStyles. -/
def findShadow (effects : List Effect) : Option Effect :=
  effects.find? (fun e => (e.type == ("DROP_SHADOW")) && truthyB e.visible)

/-- The boxShadow string getCommonStyles builds from the found shadow: the
    offsets, the radius interpolated as a template literal (undefined when
    absent) and the shadow color forced to 0.5 alpha.  The source reads
    shadow.offset.x without a guard, so a shadow with no offset throws a
    TypeError in JS; none models that thrown path and some the emitted
    string. -/
def shadowStrJs (e : Effect) : Option String :=
  match e.offset with
  | none => none
  | some off =>
    some (jnumStr off.x ++ ("px ") ++ jnumStr off.y ++ ("px ")
      ++ jnumOptStr e.radius ++ ("px ") ++ rgbToColor e.color (some (jfrac 1 2)))

/-- The effects block of getCommonStyles: the first visible drop shadow,
    when there is one, becomes the boxShadow; none propagates the
    TypeError thrown when that shadow has no offset. -/
def shadowStylesJs (effects : List Effect) : Option Styles :=
  match findShadow effects with
  | some sh =>
    match shadowStrJs sh with
    | some s => some [(("boxShadow"), .str s)]
    | none => none
  | none => some []

/-- The typography sub-block of getCommonStyles (the body of its
    if (node.type === 'TEXT') region, whose keys are disjoint from the
    blocks before it, so it is built here as its own map and appended). -/
def textStylesJs (node : NodeData) : Styles :=
  let s : Styles := []
  let s := if truthyS node.textContent && hasTwoWs ((node.textContent.getD ("")).toList)
    then setStyle ("whiteSpace") (.str ("pre")) s else s
  let s :=
    if truthyN node.rotation then
      setStyle ("whiteSpace") (.str ("nowrap")) (setStyle ("overflow") (.str ("visible")) s)
    else
      setStyle ("textOverflow") (.str ("ellipsis")) (setStyle ("overflow") (.str ("hidden")) s)
  let s :=
    if (!truthyN node.rotation) && (!(jisZero node.height)) && truthyN node.fontSize
        && jlt (jmul (node.fontSize.getD (jint 0)) (jfrac 3 2)) node.height then
      setStyle ("justifyContent") (.str ("flex-start"))
        (setStyle ("alignItems") (.str ("center")) (setStyle ("display") (.str ("flex")) s))
    else s
  let s := if truthyN node.fontSize
    then setStyle ("fontSize") (.str (jnumStr (node.fontSize.getD (jint 0)) ++ ("px"))) s else s
  let s :=
    if truthyFW node.fontWeight then
      match node.fontWeight with
      | some (.str w) => setStyle ("fontWeight") (.num (parseFloatOr w (jint 400))) s
      | some (.num q) => setStyle ("fontWeight") (.num q) s
      | none => s
    else setStyle ("fontWeight") (.num (jint 400)) s
  let s := if truthyS node.fontFamily
    then setStyle ("fontFamily") (.str (cleanFontName (node.fontFamily.getD ("")))) s else s
  let ta := if truthyS node.textAlign then node.textAlign else node.textAlignHorizontal
  let s :=
    if truthyS ta then
      let alignValue := lowerStr (ta.getD (""))
      let s := setStyle ("textAlign") (.str alignValue) s
      if getStyle s ("display") == some (.str ("flex")) then
        if alignValue == ("center") then setStyle ("justifyContent") (.str ("center")) s
        else if alignValue == ("right") then setStyle ("justifyContent") (.str ("flex-end")) s
        else setStyle ("justifyContent") (.str ("flex-start")) s
      else s
    else
      let s := setStyle ("textAlign") (.str ("left")) s
      if getStyle s ("display") == some (.str ("flex")) then
        setStyle ("justifyContent") (.str ("flex-start")) s
      else s
  let s :=
    if truthyNU node.lineHeight then
      let lh := node.lineHeight.getD (.num (jint 0))
      if nuUnit lh == some ("AUTO") then setStyle ("lineHeight") (.str ("normal")) s
      else if nuUnit lh == some ("PIXELS") then
        setStyle ("lineHeight") (.str (jnumOptStr (nuValue lh) ++ ("px"))) s
      else if nuUnit lh == some ("PERCENT") then
        setStyle ("lineHeight") (.str (jnumOptStr (nuValue lh) ++ ("%"))) s
      else if nuIsNum lh then
        setStyle ("lineHeight") (.str (jnumStr (match lh with | .num q => q | .obj _ _ => jint 0) ++ ("px"))) s
      else
        match nuValue lh with
        | some v => setStyle ("lineHeight") (.num v) s
        | none => s
    else if truthyN node.fontSize then
      setStyle ("lineHeight")
        (.str (intStr (jsRound (jmul (node.fontSize.getD (jint 0)) (jfrac 6 5))) ++ ("px"))) s
    else s
  let s :=
    if truthyNU node.letterSpacing then
      let ls := node.letterSpacing.getD (.num (jint 0))
      if nuUnit ls == some ("PIXELS") then
        setStyle ("letterSpacing") (.str (jnumOptStr (nuValue ls) ++ ("px"))) s
      else if nuUnit ls == some ("PERCENT") then
        setStyle ("letterSpacing") (.str (jnumOptStr (nuValue ls) ++ ("%"))) s
      else if nuIsNum ls then
        setStyle ("letterSpacing") (.str (jnumStr (match ls with | .num q => q | .obj _ _ => jint 0) ++ ("px"))) s
      else
        match nuValue ls with
        | some v => if !(jisZero v) then setStyle ("letterSpacing") (.str (jnumStr v ++ ("em"))) s else s
        | none => s
    else s
  s

/-- getCommonStyles of server/index.js: the flat style map for one node.
    Successive source blocks write disjoint keys (in-place overwrites only
    happen inside the typography block), so the map is assembled as ordered
    concatenation of the blocks, which coincides with JS object insertion
    order. -/
def getCommonStyles (node : NodeData) : Styles :=
  let base : Styles :=
    [(("position"), .str ("absolute")),
     (("left"), .str (jnumOptStr node.x ++ ("px"))),
     (("top"), .str (jnumOptStr node.y ++ ("px"))),
     (("width"), .str (jnumStr node.width ++ ("px"))),
     (("height"), .str (jnumStr node.height ++ ("px")))]
  let rot : Styles :=
    if truthyN node.rotation then
      [(("transform"), .str (("rotate(") ++ jnumStr (node.rotation.getD (jint 0)) ++ ("deg)"))),
       (("transformOrigin"), .str ("0 0"))]
    else []
  let fillS : Styles :=
    match node.fills with
    | fill :: _ =>
      if fill.type == ("SOLID") then
        let color := rgbToColor fill.color fill.opacity
        if node.type == ("TEXT") then [(("color"), .str color)]
        else if !(truthyS node.image) && !(truthyS node.svg) && !(truthyS node.svgBase64) then
          [(("backgroundColor"), .str color)]
        else []
      else []
    | [] => []
  let strokeS : Styles :=
    match node.strokes with
    | stroke :: _ =>
      if stroke.type == ("SOLID") then
        [(("border"),
          .str (jnumStr (if truthyN stroke.weight then stroke.weight.getD (jint 0) else jint 1)
            ++ ("px solid ") ++ rgbToColor stroke.color stroke.opacity))]
      else []
    | [] => []
  let shadowS : Styles := (shadowStylesJs node.effects).getD []
  -- the none case above is the TypeError path (a visible drop shadow with
  -- no offset), on which JS aborts the whole request instead of building
  -- any style map; this total map stays defined there, and every theorem
  -- about the shadow block carries an offset hypothesis or states the
  -- none propagation explicitly
  let textS : Styles := if node.type == ("TEXT") then textStylesJs node else []
  let radiusS : Styles :=
    if truthyN node.cornerRadius then
      [(("borderRadius"), .str (jnumStr (node.cornerRadius.getD (jint 0)) ++ ("px")))]
    else []
  base ++ rot ++ fillS ++ strokeS ++ shadowS ++ textS ++ radiusS

/-! ## server/index.js: JSX text escaping and style serialization -/

/-- escapeJSXText applied to a character list: backslashes first, then
    single quotes, newlines, carriage returns, tabs, each by a global
    single-character replace as in the source. -/
def escapeJSXTextL (l : List Char) : List Char :=
  replaceChar chTab [chBS, 't']
    (replaceChar chCR [chBS, 'r']
      (replaceChar chLF [chBS, 'n']
        (replaceChar chSQ [chBS, chSQ]
          (replaceChar chBS [chBS, chBS] l))))

/-- escapeJSXText of server/index.js; a missing or empty text yields the
    empty string. -/
def escapeJSXText : Option String → String
  | none => ("")
  | some s => if s == ("") then ("") else String.mk (escapeJSXTextL s.toList)

/-- Unescaping by the target markup's literal-string rules: how a JS
    single-quoted string literal lexes an escaped body back to characters.
    A backslash consumes the next character: n, r, t decode to the control
    character, anything else (backslash, quote, and every unrecognized
    escape, per JS) decodes to itself. -/
def jsUnescapeL : List Char → List Char
  | [] => []
  | c :: rest =>
    if c == chBS then
      match rest with
      | [] => [chBS]
      | e :: rest2 =>
        (if e == 'n' then chLF else if e == 'r' then chCR else if e == 't' then chTab else e)
          :: jsUnescapeL rest2
    else c :: jsUnescapeL rest

/-- String-level unescape. -/
def jsUnescape (s : String) : String := String.mk (jsUnescapeL s.toList)

/-- Single-quote escaping used for style values: replace(/'/g, backslash
    quote). -/
def escSQ (s : String) : String := String.mk (replaceChar chSQ [chBS, chSQ] s.toList)

/-- The fontFamily cleaning inside styleObjectToString: split at commas,
    trim each part, strip its edge quotes, rejoin with comma-space. -/
def fontFamilyClean (v : String) : String :=
  String.intercalate (", ")
    ((splitOnCh (',') v.toList).map (fun part => String.mk (stripEdgeQuotes (trimL part))))

/-- One entry of styleObjectToString: strings render quoted (fontFamily
    gets the extra cleaning), numbers render bare. -/
def styleEntryStr (k : String) (v : StyleVal) : String :=
  match v with
  | .str s =>
    if k == ("fontFamily") then
      k ++ (": \x27") ++ escSQ (fontFamilyClean s) ++ ("\x27")
    else
      k ++ (": \x27") ++ escSQ s ++ ("\x27")
  | .num q => k ++ (": ") ++ jnumStr q

/-- styleObjectToString of server/index.js. -/
def styleObjectToString (styles : Styles) : String :=
  String.intercalate (", ") (styles.map (fun e => styleEntryStr e.1 e.2))

/-- The SVG escaping of the IMAGE/VECTOR branch of generateElement:
    backslash, single quote, double quote, newline, carriage return. -/
def escapeSvgJs (l : List Char) : List Char :=
  replaceChar chCR [chBS, 'r']
    (replaceChar chLF [chBS, 'n']
      (replaceChar chDQ [chBS, chDQ]
        (replaceChar chSQ [chBS, chSQ]
          (replaceChar chBS [chBS, chBS] l))))

/-! ## server/index.js: the DOM generator -/

mutual
/-- generateElement of server/index.js: prune invisible nodes, then text
    leaf, then asset leaf, then structural container with recursive
    children. -/
def generateElement (nd : Node) : String :=
  match nd with
  | .node d cs =>
    if !truthyB d.visible then ("")
    else
      let styles := getCommonStyles d
      if d.type == ("TEXT") then
        let styleStr := styleObjectToString styles
        let escapedText := escapeJSXText d.textContent
        let textJSX := ("\x7b\x27") ++ escapedText ++ ("\x27\x7d")
        if truthyN d.rotation then
          ("<div style=\x7b\x7b") ++ styleStr
            ++ ("\x7d\x7d><span style=\x7b\x7bdisplay: \x27inline-block\x27, width: \x27100%\x27, textAlign: \x27")
            ++ styleStrOr styles ("textAlign") ("left")
            ++ ("\x27\x7d\x7d>") ++ textJSX ++ ("</span></div>")
        else if getStyle styles ("display") == some (.str ("flex")) then
          let textAlign := styleStrOr styles ("textAlign") ("left")
          ("<div style=\x7b\x7b") ++ styleStr
            ++ ("\x7d\x7d><span style=\x7b\x7bwidth: \x27100%\x27, textAlign: \x27")
            ++ textAlign ++ ("\x27\x7d\x7d>") ++ textJSX ++ ("</span></div>")
        else
          ("<div style=\x7b\x7b") ++ styleStr ++ ("\x7d\x7d>") ++ textJSX ++ ("</div>")
      else if truthyS d.image || truthyS d.svg || truthyS d.svgBase64 then
        let styleStr := styleObjectToString styles
        if truthyS d.svg then
          let escapedSvg := String.mk (escapeSvgJs ((d.svg.getD ("")).toList))
          ("<div style=\x7b\x7b") ++ styleStr
            ++ ("\x7d\x7d dangerouslySetInnerHTML=\x7b\x7b__html: \x27") ++ escapedSvg
            ++ ("\x27\x7d\x7d />")
        else
          let src := if truthyS d.svgBase64 then d.svgBase64.getD ("") else d.image.getD ("")
          ("<img src=\x22") ++ src ++ ("\x22 alt=\x22") ++ d.name
            ++ ("\x22 style=\x7b\x7b") ++ styleStr ++ (", objectFit: \x27contain\x27\x7d\x7d />")
      else
        let childrenHtml := String.intercalate ("\n") (generateElementList cs)
        ("<div style=\x7b\x7b") ++ styleObjectToString styles ++ ("\x7d\x7d>")
          ++ childrenHtml ++ ("</div>")

/-- The children map of generateElement, in document order. -/
def generateElementList : NodeList → List String
  | .nil => []
  | .cons c rest => generateElement c :: generateElementList rest
end

/-- generateComponent of server/index.js.  The source reads data[0].width
    unconditionally, so an empty root sequence throws a TypeError there;
    none models that thrown path. -/
def generateComponentJs (data : List Node) (name : String) : Option String :=
  match data with
  | [] => none
  | root :: _ =>
    let d := root.data
    let rootBg :=
      match d.fills with
      | fill :: _ => if fill.type == ("SOLID") then rgbToColor fill.color fill.opacity else ("transparent")
      | [] => ("transparent")
    let childrenHtml := String.intercalate ("\n") (generateElementList root.children)
    some
      (("import React from \x27react\x27;\nimport \x27./") ++ name
        ++ (".css\x27;\n\nconst ") ++ name
        ++ (" = () => \x7b\n    return (\n        <div style=\x7b\x7b\n            position: \x27relative\x27,\n            width: \x27")
        ++ jnumStr d.width
        ++ ("px\x27,\n            height: \x27") ++ jnumStr d.height
        ++ ("px\x27,\n            backgroundColor: \x27") ++ rootBg
        ++ ("\x27,\n            overflow: \x27hidden\x27,\n            margin: \x270 auto\x27 // Center it\n        \x7d\x7d>\n            ")
        ++ childrenHtml
        ++ ("\n        </div>\n    );\n\x7d;\n\nexport default ") ++ name ++ (";\n"))

/-! ## server/index.js: fonts -/

/-- The fixed system-font denylist of isSystemFont. -/
def systemFonts : List String :=
  [("arial"), ("helvetica"), ("times"), ("courier"), ("verdana"), ("georgia"),
   ("palatino"), ("garamond"), ("bookman"), ("comic sans ms"), ("trebuchet ms"),
   ("arial black"), ("impact"), ("system"), ("monospace"), ("serif"), ("sans-serif"),
   ("cursive"), ("fantasy"), ("-apple-system"), ("blinkmacsystemfont"), ("segoe ui"),
   ("roboto"), ("oxygen"), ("ubuntu"), ("cantarell"), ("fira sans"), ("droid sans"),
   ("helvetica neue")]

/-- isSystemFont of server/index.js: case-insensitive substring containment
    against the denylist. -/
def isSystemFont (fontName : String) : Bool :=
  systemFonts.any (fun sysFont => containsStr (lowerStr fontName) (lowerStr sysFont))

mutual
/-- The traverse closure of extractFontsFromData: collect the cleaned
    fontFamily of this node when it is non-empty and not a system font,
    then recurse into the children; the accumulator keeps Set insertion
    order without duplicates. -/
def traverseFonts (nd : Node) (acc : List String) : List String :=
  match nd with
  | .node d cs =>
    let acc :=
      if truthyS d.fontFamily then
        let cleanFont := cleanFontName (d.fontFamily.getD (""))
        if (!(cleanFont == (""))) && (!isSystemFont cleanFont) then
          (if acc.contains cleanFont then acc else acc ++ [cleanFont])
        else acc
      else acc
    traverseFontsList cs acc

/-- Traverse a node list left to right, threading the accumulator. -/
def traverseFontsList : NodeList → List String → List String
  | .nil, acc => acc
  | .cons c rest, acc => traverseFontsList rest (traverseFonts c acc)
end

/-- extractFontsFromData of server/index.js: the unique non-system fonts of
    the whole payload in first-seen order. -/
def extractFontsFromData (data : NodeList) : List String :=
  traverseFontsList data []

/-! ## The semantic classifier (detectComponentType) -/

/-- detectComponentType: name/type heuristics in fixed order, first match
    wins. -/
def detectComponentType (node : NodeData) : Option String :=
  let name := lowerStr node.name
  if (containsStr name ("button") || containsStr name ("btn"))
      && ((node.type == ("FRAME")) || (node.type == ("INSTANCE"))
          || (node.type == ("GROUP")) || (node.type == ("COMPONENT"))) then
    some ("Button")
  else if containsStr name ("input") || containsStr name ("field") || containsStr name ("search") then
    some ("TextField")
  else if containsStr name ("checkbox") || containsStr name ("tick") then
    some ("Checkbox")
  else if node.type == ("TEXT") then
    some ("Typography")
  else
    none

/-- The classifier as the spec words it: an ordered rule table consulted
    first-match-first.  This definition follows the specification text and
    is compared against detectComponentType, which follows the source. -/
def classifyRules : List ((NodeData → Bool) × String) :=
  [(fun n => (containsStr (lowerStr n.name) ("button") || containsStr (lowerStr n.name) ("btn"))
      && ((n.type == ("FRAME")) || (n.type == ("INSTANCE"))
          || (n.type == ("GROUP")) || (n.type == ("COMPONENT"))), ("Button")),
   (fun n => containsStr (lowerStr n.name) ("input") || containsStr (lowerStr n.name) ("field")
      || containsStr (lowerStr n.name) ("search"), ("TextField")),
   (fun n => containsStr (lowerStr n.name) ("checkbox") || containsStr (lowerStr n.name) ("tick"), ("Checkbox")),
   (fun n => n.type == ("TEXT"), ("Typography"))]

/-- First matching rule of a rule table. -/
def firstRule (rules : List ((NodeData → Bool) × String)) (n : NodeData) : Option String :=
  match rules with
  | [] => none
  | r :: rest => if r.1 n then some r.2 else firstRule rest n

/-- The specification's classifier. -/
def classifySpec (n : NodeData) : Option String := firstRule classifyRules n

/-! ## The plugin's font-weight vocabulary (convertFontWeight) -/

/-- convertFontWeight of the plugin: empty input and unknown names default
    to 400, a parseable number wins outright, otherwise the style-name
    vocabulary is consulted in source order. -/
def convertFontWeight (style : String) : JNum :=
  if style == ("") then jint 400
  else
    let styleLower := lowerStr style
    match jsParseFloat style with
    | some numeric => numeric
    | none =>
      if containsStr styleLower ("thin") || containsStr styleLower ("100") then jint 100
      else if containsStr styleLower ("extralight") || containsStr styleLower ("ultralight")
          || containsStr styleLower ("200") then jint 200
      else if containsStr styleLower ("light") || containsStr styleLower ("300") then jint 300
      else if containsStr styleLower ("regular") || containsStr styleLower ("normal")
          || containsStr styleLower ("400") then jint 400
      else if containsStr styleLower ("medium") || containsStr styleLower ("500") then jint 500
      else if containsStr styleLower ("semibold") || containsStr styleLower ("demi")
          || containsStr styleLower ("600") then jint 600
      else if containsStr styleLower ("bold") || containsStr styleLower ("700") then jint 700
      else if containsStr styleLower ("extrabold") || containsStr styleLower ("ultrabold")
          || containsStr styleLower ("800") then jint 800
      else if containsStr styleLower ("black") || containsStr styleLower ("heavy")
          || containsStr styleLower ("900") then jint 900
      else jint 400

/-! ## The MCP-server compiler (generateComponentCode / generateNodeComponent) -/

/-- Color conversion of the MCP server (its rgbToColor): identical
    behavior, kept as its own definition to mirror the second source. -/
def rgbToColor004 (rgb : Option RGB) (opacity : Option JNum) : String :=
  match rgb with
  | none => ("transparent")
  | some c =>
    let r := jsRound (jmul c.r (jint 255))
    let g := jsRound (jmul c.g (jint 255))
    let b := jsRound (jmul c.b (jint 255))
    let a := opacity.getD (jint 1)
    if jlt a (jint 1) then
      ("rgba(") ++ intStr r ++ (", ") ++ intStr g ++ (", ") ++ intStr b ++ (", ")
        ++ jnumStr a ++ (")")
    else
      ("rgb(") ++ intStr r ++ (", ") ++ intStr g ++ (", ") ++ intStr b ++ (")")

/-- getBackgroundStyle: the first fill only, when solid with a color. -/
def getBackgroundStyle (fills : List Fill) : Styles :=
  match fills with
  | [] => []
  | fill :: _ =>
    if (fill.type == ("SOLID")) && fill.color.isSome then
      [(("backgroundColor"), .str (rgbToColor004 fill.color fill.opacity))]
    else []

/-- getBorderStyle: the first stroke only, when solid with a color; the
    weight defaults to 1 via JS ||. -/
def getBorderStyle (strokes : List Stroke) : Styles :=
  match strokes with
  | [] => []
  | stroke :: _ =>
    if (stroke.type == ("SOLID")) && stroke.color.isSome then
      [(("borderWidth"),
        .str (jnumStr (if truthyN stroke.weight then stroke.weight.getD (jint 0) else jint 1) ++ ("px"))),
       (("borderStyle"), .str ("solid")),
       (("borderColor"), .str (rgbToColor004 stroke.color stroke.opacity))]
    else []

/-- The visible-drop-shadow filter of getEffectStyles. -/
def isVisibleDropShadow (e : Effect) : Bool :=
  (e.type == ("DROP_SHADOW")) && truthyB e.visible

/-- The per-shadow string of getEffectStyles: offsets and radius defaulted
    to 0 via JS ||, color at full alpha when present, else the literal
    rgba(0, 0, 0, 0.25). -/
def shadowStr004 (e : Effect) : String :=
  let offsetX := (e.offset.getD ⟨jint 0, jint 0⟩).x
  let offsetY := (e.offset.getD ⟨jint 0, jint 0⟩).y
  let blur := e.radius.getD (jint 0)
  let color :=
    match e.color with
    | some c => rgbToColor004 (some c) (some (jint 1))
    | none => ("rgba(0, 0, 0, 0.25)")
  jnumStr offsetX ++ ("px ") ++ jnumStr offsetY ++ ("px ") ++ jnumStr blur ++ ("px ") ++ color

/-- getEffectStyles of the MCP server: every visible drop shadow is
    rendered and the results are joined into one boxShadow. -/
def getEffectStyles (effects : List Effect) : Styles :=
  let shadows := (effects.filter isVisibleDropShadow).map shadowStr004
  if shadows.length > 0 then
    [(("boxShadow"), .str (String.intercalate (", ") shadows))]
  else []

/-- toCamelCase over characters: a dash followed by an ASCII lowercase
    letter upcases the letter, as the regex replace in the source. -/
def toCamelCaseL : List Char → List Char
  | [] => []
  | [c] => [c]
  | c :: c2 :: rest =>
    if (c == '-') && isAsciiLower c2 then toUpperCh c2 :: toCamelCaseL rest
    else c :: toCamelCaseL (c2 :: rest)

/-- toCamelCase of the MCP server. -/
def toCamelCase (s : String) : String := String.mk (toCamelCaseL s.toList)

/-- The normalization loop of generateNodeComponent: keep defined,
    non-empty values, camel-case the keys, and rebuild the object in
    order. -/
def normalizeStyles (styles : Styles) : Styles :=
  styles.foldl
    (fun acc e =>
      let keep := match e.2 with | .str s => !(s == ("")) | .num _ => true
      if keep then setStyle (toCamelCase e.1) e.2 acc else acc)
    []

/-- Stringify one style value as JS String(value) does for the strings and
    finite numbers the generator produces. -/
def svToString : StyleVal → String
  | .str s => s
  | .num q => jnumStr q

/-- The style-entry lines of generateNodeComponent: each entry indented,
    single quotes escaped, joined with comma-newline. -/
def styleLines (indent extra : String) (styles : Styles) : String :=
  String.intercalate (",\n")
    (styles.map (fun e => indent ++ extra ++ e.1 ++ (": \x27") ++ escSQ (svToString e.2) ++ ("\x27")))

/-- Repeat a string, as JS String.prototype.repeat. -/
def repeatStr (s : String) (n : Nat) : String := String.join (List.replicate n s)

/-- Value of one base64 alphabet character. -/
def b64Val (c : Char) : Option Nat :=
  if isAsciiUpper c then some (c.toNat - 65)
  else if isAsciiLower c then some (c.toNat - 97 + 26)
  else if isAsciiDigit c then some (c.toNat - 48 + 52)
  else if c == '+' then some 62
  else if c == '/' then some 63
  else none

/-- Regroup 6-bit values into bytes, the way Buffer.from(s, 'base64')
    consumes a (possibly padded) base64 body after ignoring characters
    outside the alphabet. -/
def b64Groups : List Nat → List Nat
  | a :: b :: c :: d :: rest =>
    (a * 4 + b / 16) :: ((b % 16) * 16 + c / 4) :: ((c % 4) * 64 + d) :: b64Groups rest
  | [a, b] => [a * 4 + b / 16]
  | [a, b, c] => [a * 4 + b / 16, (b % 16) * 16 + c / 4]
  | _ => []

/-- Permissive UTF-8 decoding of a byte list, as Buffer.prototype.toString
    with utf-8 does on the well-formed payloads the plugin exports
    (malformed sequences decode to the replacement character). -/
def utf8Decode : List Nat → List Char
  | [] => []
  | b :: rest =>
    if b < 128 then Char.ofNat b :: utf8Decode rest
    else if b < 192 then Char.ofNat 65533 :: utf8Decode rest
    else if b < 224 then
      match rest with
      | b2 :: rest2 => Char.ofNat ((b % 32) * 64 + b2 % 64) :: utf8Decode rest2
      | [] => [Char.ofNat 65533]
    else if b < 240 then
      match rest with
      | b2 :: b3 :: rest3 => Char.ofNat ((b % 16) * 4096 + (b2 % 64) * 64 + b3 % 64) :: utf8Decode rest3
      | _ => [Char.ofNat 65533]
    else
      match rest with
      | b2 :: b3 :: b4 :: rest4 =>
        Char.ofNat ((b % 8) * 262144 + (b2 % 64) * 4096 + (b3 % 64) * 64 + b4 % 64) :: utf8Decode rest4
      | _ => [Char.ofNat 65533]

/-- The Buffer.from(base64).toString(utf-8) decode used on data-URI SVG
    payloads. -/
def b64DecodeUtf8 (s : String) : String :=
  String.mk (utf8Decode (b64Groups (s.toList.filterMap b64Val)))

/-- The SVG escaping of generateNodeComponent: backslash, backtick, dollar,
    newlines to spaces, whitespace runs collapsed, then trimmed. -/
def escapeSvg004 (l : List Char) : List Char :=
  trimL (collapseWs
    (replaceChar chLF [' ']
      (replaceChar chDollar [chBS, chDollar]
        (replaceChar chBT [chBS, chBT]
          (replaceChar chBS [chBS, chBS] l)))))

mutual
/-- generateNodeComponent of the MCP server: one node rendered to JSX with
    the node counter threaded through (the source mutates a closure-local
    nodeCounter; here it is passed in and the advanced value returned). -/
def genNode004 (nd : Node) (depth : Nat) (parentX parentY : JNum) (ctr : Nat) : String × Nat :=
  match nd with
  | .node d cs =>
    let indent := repeatStr ("      ") depth
    let nodeId := ("node_") ++ natStr ctr
    let ctrAfter := ctr + 1
    let isRoot := depth == 0
    let relativeX : JNum :=
      if isRoot then jint 0
      else match d.x with | some q => jsub q parentX | none => jint 0
    let relativeY : JNum :=
      if isRoot then jint 0
      else match d.y with | some q => jsub q parentY | none => jint 0
    let isTextNode := d.type == ("TEXT")
    let hasSVG := truthyS d.svg || truthyS d.svgBase64
    let shouldUseSVG := hasSVG && !isTextNode
    let styles : Styles :=
      [(("width"), .str (jnumStr d.width ++ ("px"))),
       (("height"), .str (jnumStr d.height ++ ("px"))),
       (("position"), .str (if isRoot then ("relative") else ("absolute"))),
       (("opacity"), .num (d.opacity.getD (jint 1))),
       (("display"), .str (if !(d.visible == some false) then ("block") else ("none")))]
      ++ (if (hasSVG && shouldUseSVG) || isTextNode then [] else getBackgroundStyle d.fills)
      ++ getBorderStyle d.strokes
      ++ getEffectStyles d.effects
    let styles :=
      if !isRoot then
        setStyle ("top") (.str (jnumStr relativeY ++ ("px")))
          (setStyle ("left") (.str (jnumStr relativeX ++ ("px"))) styles)
      else styles
    let styles :=
      if truthyN d.cornerRadius then
        setStyle ("borderRadius") (.str (jnumStr (d.cornerRadius.getD (jint 0)) ++ ("px"))) styles
      else styles
    let styles :=
      if (d.layoutMode == some ("HORIZONTAL")) || (d.layoutMode == some ("VERTICAL")) then
        let s := setStyle ("display") (.str ("flex")) styles
        let s := setStyle ("position") (.str ("relative")) s
        let s := setStyle ("flexDirection")
          (.str (if d.layoutMode == some ("HORIZONTAL") then ("row") else ("column"))) s
        let s := if truthyN d.gap
          then setStyle ("gap") (.str (jnumStr (d.gap.getD (jint 0)) ++ ("px"))) s else s
        let s := if truthyN d.paddingLeft
          then setStyle ("paddingLeft") (.str (jnumStr (d.paddingLeft.getD (jint 0)) ++ ("px"))) s else s
        let s := if truthyN d.paddingRight
          then setStyle ("paddingRight") (.str (jnumStr (d.paddingRight.getD (jint 0)) ++ ("px"))) s else s
        let s := if truthyN d.paddingTop
          then setStyle ("paddingTop") (.str (jnumStr (d.paddingTop.getD (jint 0)) ++ ("px"))) s else s
        let s := if truthyN d.paddingBottom
          then setStyle ("paddingBottom") (.str (jnumStr (d.paddingBottom.getD (jint 0)) ++ ("px"))) s else s
        delStyle ("top") (delStyle ("left") s)
      else styles
    let normalizedStyles := normalizeStyles styles
    let styleString :=
      if normalizedStyles.length > 0 then styleLines indent ("        ") normalizedStyles else ("")
    let content : String :=
      if isTextNode && truthyS d.textContent then
        let textStyles : Styles :=
          (if truthyN d.fontSize
            then [(("fontSize"), .str (jnumStr (d.fontSize.getD (jint 0)) ++ ("px")))] else [])
          ++ (if truthyS d.fontFamily
            then [(("fontFamily"), .str (String.mk (removeChar chSQ ((d.fontFamily.getD ("")).toList))))] else [])
          ++ (if truthyFW d.fontWeight
            then [(("fontWeight"), .num (match d.fontWeight with | some (.num q) => q | _ => jint 400))] else [])
          ++ (if truthyS d.textAlign
            then [(("textAlign"), .str (lowerStr (d.textAlign.getD (""))))] else [])
          ++ (match d.fills with
              | fill :: _ =>
                match fill.color with
                | some c => [(("color"), .str (rgbToColor004 (some c) fill.opacity))]
                | none => []
              | [] => [])
        let normText := normalizeStyles textStyles
        let textStyleStr := if normText.length > 0 then styleLines indent ("          ") normText else ("")
        let escText := escSQ (d.textContent.getD (""))
        if !(textStyleStr == ("")) then
          ("\n") ++ indent ++ ("        <span style=\x7b\x7b\n") ++ textStyleStr ++ ("\n")
            ++ indent ++ ("        \x7d\x7d>\n") ++ indent ++ ("          ") ++ escText
            ++ ("\n") ++ indent ++ ("        </span>")
        else
          ("\n") ++ indent ++ ("        <span>\n") ++ indent ++ ("          ") ++ escText
            ++ ("\n") ++ indent ++ ("        </span>")
      else if hasSVG && shouldUseSVG then
        let svgContent0 := if truthyS d.svg then d.svg.getD ("") else d.svgBase64.getD ("")
        let svgContent :=
          if startsStr svgContent0 ("data:image/svg+xml;base64,") then
            b64DecodeUtf8 (String.mk (svgContent0.toList.drop 26))
          else svgContent0
        if (!(svgContent == (""))) && !(startsStr svgContent ("data:")) then
          let escapedSvg := String.mk (escapeSvg004 svgContent.toList)
          ("\n") ++ indent ++ ("        <div\n") ++ indent
            ++ ("          style=\x7b\x7b width: \x27100%\x27, height: \x27100%\x27, display: \x27flex\x27, alignItems: \x27center\x27, justifyContent: \x27center\x27, overflow: \x27hidden\x27 \x7d\x7d\n")
            ++ indent ++ ("          dangerouslySetInnerHTML=\x7b\x7b __html: \x60") ++ escapedSvg
            ++ ("\x60 \x7d\x7d\n") ++ indent ++ ("        />")
        else if (!(svgContent == (""))) && startsStr svgContent ("data:") then
          ("\n") ++ indent ++ ("        <img src=\x22") ++ svgContent ++ ("\x22 alt=\x22") ++ d.name
            ++ ("\x22 style=\x7b\x7b width: \x27100%\x27, height: \x27100%\x27, objectFit: \x27contain\x27 \x7d\x7d />")
        else ("")
      else if truthyS d.image then
        ("\n") ++ indent ++ ("        <img src=\x22") ++ (d.image.getD ("")) ++ ("\x22 alt=\x22") ++ d.name
          ++ ("\x22 style=\x7b\x7b width: \x27100%\x27, height: \x27100%\x27, objectFit: \x27contain\x27 \x7d\x7d />")
      else ("")
    let childrenX : JNum :=
      if isRoot then
        let rootX := d.x.getD (jint 0)
        if truthyS d.layoutMode then jint 0
        else if jlt rootX (jint 0) then jneg rootX else jint 0
      else
        if truthyS d.layoutMode then jint 0
        else match d.x with | some q => q | none => parentX
    let childrenY : JNum :=
      if isRoot then
        let rootY := d.y.getD (jint 0)
        if truthyS d.layoutMode then jint 0
        else if jlt rootY (jint 0) then jneg rootY else jint 0
      else
        if truthyS d.layoutMode then jint 0
        else match d.y with | some q => q | none => parentY
    let childRes := genList004 cs (depth + 1) childrenX childrenY ctrAfter
    let childrenContent := String.intercalate ("\n") childRes.1
    let ctr2 := childRes.2
    let tag := if isTextNode then ("span") else ("div")
    let isSelfClosing := cs.isNil && (content == (""))
    let openingTag := indent ++ ("    <") ++ tag ++ ("\n") ++ indent ++ ("      key=\x22") ++ nodeId ++ ("\x22")
    let openingTag :=
      if !(styleString == ("")) then
        openingTag ++ ("\n") ++ indent ++ ("      style=\x7b\x7b\n") ++ styleString ++ ("\n")
          ++ indent ++ ("      \x7d\x7d")
      else openingTag
    if isSelfClosing then (openingTag ++ ("\n    />"), ctr2)
    else
      (openingTag ++ ("\n    >\n") ++ content ++ childrenContent ++ indent ++ ("    </") ++ tag ++ (">"),
       ctr2)

/-- The children map of generateNodeComponent, threading the counter in
    document order. -/
def genList004 : NodeList → Nat → JNum → JNum → Nat → (List String × Nat)
  | .nil, _, _, _, c => ([], c)
  | .cons n rest, depth, px, py, c =>
    let r1 := genNode004 n depth px py c
    let r2 := genList004 rest depth px py r1.2
    (r1.1 :: r2.1, r2.2)
end

/-- The root map of generateComponentCode: each root gets a children offset
    that is the absolute value of its negative coordinates, and the counter
    is shared across roots. -/
def genRoots004 : List Node → Nat → (List String × Nat)
  | [], c => ([], c)
  | comp :: rest, c =>
    let d := comp.data
    let rootX := d.x.getD (jint 0)
    let rootY := d.y.getD (jint 0)
    let childrenOffsetX := if jlt rootX (jint 0) then jneg rootX else jint 0
    let childrenOffsetY := if jlt rootY (jint 0) then jneg rootY else jint 0
    let r1 := genNode004 comp 0 childrenOffsetX childrenOffsetY c
    let r2 := genRoots004 rest r1.2
    (r1.1 :: r2.1, r2.2)

/-- generateComponentCode of the MCP server (the payload is modelled as the
    root list the handler passes; the node counter starts at 0 on every
    call, as the closure-local let in the source does). -/
def generateComponentCode004 (data : List Node) (componentName : String) : String :=
  let mainComponent := String.intercalate ("\n") (genRoots004 data 0).1
  ("import React from \x27react\x27;\nimport \x27./") ++ componentName
    ++ (".css\x27;\n\nconst ") ++ componentName
    ++ (" = () => \x7b\n  return (\n    <div className=\x22") ++ lowerStr componentName
    ++ ("-container\x22>\n") ++ mainComponent
    ++ ("\n    </div>\n  );\n\x7d;\n\nexport default ") ++ componentName ++ (";\n")

/-- A hypothetical variant in which the node counter would survive from a
    previous request (initial value c) instead of the source's fresh
    let nodeCounter = 0; used to state that the output cannot depend on any
    pre-existing process state. -/
def generateComponentCode004From (c : Nat) (data : List Node) (componentName : String) : String :=
  let mainComponent := String.intercalate ("\n") (genRoots004 data c).1
  ("import React from \x27react\x27;\nimport \x27./") ++ componentName
    ++ (".css\x27;\n\nconst ") ++ componentName
    ++ (" = () => \x7b\n  return (\n    <div className=\x22") ++ lowerStr componentName
    ++ ("-container\x22>\n") ++ mainComponent
    ++ ("\n    </div>\n  );\n\x7d;\n\nexport default ") ++ componentName ++ (";\n")

mutual
/-- Number of nodes of a subtree. -/
def nodeCount : Node → Nat
  | .node _ cs => 1 + nodeCountList cs

/-- Number of nodes of a forest. -/
def nodeCountList : NodeList → Nat
  | .nil => 0
  | .cons c rest => nodeCount c + nodeCountList rest
end

/-! ## The request handlers (their pure decision logic) -/

/-- Outcome of one compilation request: a synchronous validation error, a
    success carrying the generated component, or a caught server error. -/
inductive GenResponse where
  | badRequest (msg : String)
  | ok (componentName code : String)
  | serverError
deriving DecidableEq, Repr

/-- Success test. -/
def GenResponse.isOk : GenResponse → Bool
  | .ok _ _ => true
  | _ => false

/-- The name sanitizer replace(/[^a-zA-Z0-9]/g, ''). -/
def sanitizeName (s : String) : String := String.mk (s.toList.filter isAlphaNumCh)

/-- The /generate-component handler of the MCP server: only a missing
    (falsy) data field is rejected; any present array, the empty one
    included, proceeds to generation and a success response (the file
    writes always follow generation and are outside this pure model).
    data[0]?.name for an empty array is undefined, so the component name
    falls back to the default via ||. -/
def handleGenerateComponent (payload : Option (List Node)) : GenResponse :=
  match payload with
  | none => .badRequest ("No data provided")
  | some data =>
    let fromFirst :=
      match data with
      | root :: _ => sanitizeName root.data.name
      | [] => ("")
    let componentName := if fromFirst == ("") then ("FigmaComponent") else fromFirst
    .ok componentName (generateComponentCode004 data componentName)

/-- The /api/generate handler of server/index.js: it dereferences
    data[0].name with no guard, so an empty payload throws and the catch
    answers a 500 server error; otherwise generation proceeds to a success
    response. -/
def handleApiGenerate (data : List Node) : GenResponse :=
  match data with
  | [] => .serverError
  | root :: _ =>
    let s := sanitizeName root.data.name
    let componentName := if s == ("") then ("Frame1") else s
    match generateComponentJs data componentName with
    | some code => .ok componentName code
    | none => .serverError

/-! ## Concrete inputs used by the theorems below -/

/-- A child frame at local position (10, 10). -/
def c1Child : Node :=
  .node ({ name := ("Label"), type := ("FRAME"), width := jint 10, height := jint 10,
           x := some (jint 10), y := some (jint 10), visible := some true }) .nil

/-- A root frame at (-50, -10) holding c1Child, the scenario of the
    coordinate-containment claim. -/
def c1Root : Node :=
  .node ({ name := ("Card"), type := ("FRAME"), width := jint 300, height := jint 120,
           x := some (jint (-50)), y := some (jint (-10)), visible := some true })
    (.cons c1Child .nil)

/-- An invisible child node. -/
def c2Hidden : Node :=
  .node ({ name := ("Hidden"), type := ("FRAME"), width := jint 7, height := jint 7,
           x := some (jint 3), y := some (jint 4), visible := some false }) .nil

/-- A visible root holding the invisible child. -/
def c2Root : Node :=
  .node ({ name := ("Shell"), type := ("FRAME"), width := jint 100, height := jint 100,
           x := some (jint 0), y := some (jint 0), visible := some true })
    (.cons c2Hidden .nil)

/-- Scalar data of an invisible node, for the pruning witness. -/
def c2HiddenData : NodeData :=
  { name := ("Ghost"), type := ("FRAME"), width := jint 5, height := jint 5,
    visible := some false }

/-- A child with a distinctive width, to be spotted in generated output. -/
def c5Child : Node :=
  .node ({ name := ("Inner"), type := ("RECTANGLE"), width := jint 123, height := jint 45,
           x := some (jint 1), y := some (jint 2), visible := some true }) .nil

/-- Scalar data of a non-text node that carries an inline vector asset. -/
def c5AssetData : NodeData :=
  { name := ("Icon"), type := ("FRAME"), width := jint 24, height := jint 24,
    x := some (jint 0), y := some (jint 0), visible := some true,
    svg := some ("<svg>ok</svg>") }

/-- The asset-carrying node together with a child node. -/
def c5Root : Node := .node c5AssetData (.cons c5Child .nil)

/-- A visible drop shadow with no color of its own. -/
def c7NoColorShadow : Effect :=
  { type := ("DROP_SHADOW"), offset := some ⟨jint 1, jint 2⟩, radius := some (jint 4),
    visible := some true }

/-- A second visible drop shadow. -/
def c7Shadow2 : Effect :=
  { type := ("DROP_SHADOW"), offset := some ⟨jint 3, jint 5⟩, radius := some (jint 9),
    visible := some true }

/-- A visible drop shadow with no offset at all: the input on which the
    unguarded shadow.offset.x read of server/index.js throws. -/
def c7OffsetlessShadow : Effect :=
  { type := ("DROP_SHADOW"), radius := some (jint 4), visible := some true }

/-- A plain frame whose only effect is the color-less shadow. -/
def c7NodeJs : NodeData :=
  { name := ("S"), type := ("FRAME"), width := jint 1, height := jint 1,
    x := some (jint 0), y := some (jint 0), visible := some true,
    effects := [c7NoColorShadow] }

/-- A container named search button, the classifier tiebreak scenario. -/
def c3SearchButton : NodeData :=
  { name := ("search button"), type := ("FRAME") }

/-- A text node with a non-system font family. -/
def c10Leaf : Node :=
  .node ({ name := ("T"), type := ("TEXT"), fontFamily := some ("CustomFont"),
           visible := some true }) .nil

/-- A payload holding the text node under a root frame. -/
def c10Tree : NodeList :=
  .cons (.node ({ name := ("Root"), type := ("FRAME"), visible := some true })
    (.cons c10Leaf .nil)) .nil

/-- Subtree count of a root list (the payload of generateComponentCode). -/
def listNodeCount : List Node → Nat
  | [] => 0
  | n :: rest => nodeCount n + listNodeCount rest

/-! ## Theorems -/

set_option maxRecDepth 100000
set_option maxHeartbeats 2000000

/-- C1: the specification requires a positive offset equal to the absolute
    value of the minimum negative coordinate to be ADDED uniformly, so a
    root at (-50,-10) with a child at local (10,10) must emit the child at
    (60,20) and no emitted position may be negative.  Evaluating the
    compiler at exactly that input shows the child emitted at
    left -40px, top 0px: generateNodeComponent computes child.x MINUS the
    offset (node.x - parentX with parentX = abs(rootX)), the opposite of
    what its own comment (children need a +offset) and the spec require, so
    a negative position is emitted. -/
theorem c1_negative_offset_emitted :
    containsStr (generateComponentCode004 [c1Root] ("Card")) ("left: \x27-40px\x27") = true ∧
    containsStr (generateComponentCode004 [c1Root] ("Card")) ("left: \x2760px\x27") = false ∧
    containsStr (generateComponentCode004 [c1Root] ("Card")) ("top: \x270px\x27") = true ∧
    containsStr (generateComponentCode004 [c1Root] ("Card")) ("top: \x2720px\x27") = false := by
  decide

/-- C2 counterexample: a tree whose root holds an invisible child, compiled
    by generateNodeComponent, emits markup for the invisible node (its
    node_1 key appears and it is hidden with display none instead of being
    pruned), refuting the claim that no markup fragment for an invisible
    node appears in the output. -/
theorem c2_invisible_node_markup_emitted :
    containsStr (generateComponentCode004 [c2Root] ("Shell")) ("display: \x27none\x27") = true ∧
    containsStr (generateComponentCode004 [c2Root] ("Shell")) ("node_1") = true := by
  decide

/-- C2 amended: in the generateElement compiler of server/index.js a node
    whose visible field is falsy emits nothing, so the whole subtree is
    pruned from the output. -/
theorem c2_generateElement_prunes :
    ∀ (d : NodeData) (cs : NodeList), truthyB d.visible = false →
      generateElement (.node d cs) = ("") := by
  intro d cs h
  simp [generateElement, h]

/-- C2 witness: the pruning theorem applied to a concrete invisible node. -/
theorem c2_generateElement_prunes_witness :
    generateElement (.node c2HiddenData .nil) = ("") :=
  c2_generateElement_prunes c2HiddenData .nil (by decide)

/-- C3: the classifier checks its rules in the fixed order button,
    text field, checkbox, typography with the first match winning, exactly
    as the specification words it (classifySpec is that rule table), and a
    container named search button is a Button, not a TextField. -/
theorem c3_classifier_first_match :
    (∀ n : NodeData, detectComponentType n = classifySpec n) ∧
    detectComponentType c3SearchButton = some ("Button") := by
  constructor
  · intro n
    rfl
  · decide

/-- C4 counterexample: the style string Light SemiBold contains semibold,
    so the claim maps it to 600, but convertFontWeight checks light
    earlier in its vocabulary and yields 300. -/
theorem c4_earlier_keyword_beats_semibold :
    convertFontWeight ("Light SemiBold") = jint 300 ∧
    ¬(convertFontWeight ("Light SemiBold") = jint 600) := by
  decide

/-- C4 amended: a parseable leading number wins outright (before any name
    check); otherwise the vocabulary is consulted in source order (thin,
    extralight, light, regular, medium, semibold, bold, extrabold, black),
    so Bold yields 700, SemiBold yields 600, a pure number string yields
    that number, an unrecognized name yields 400, and a name containing an
    earlier vocabulary word beside semibold (Light SemiBold) yields the
    earlier weight. -/
theorem c4_font_weight_vocabulary :
    (∀ (s : String) (q : JNum), (s == ("")) = false → jsParseFloat s = some q →
      convertFontWeight s = q) ∧
    convertFontWeight ("Bold") = jint 700 ∧
    convertFontWeight ("SemiBold") = jint 600 ∧
    convertFontWeight ("600") = jint 600 ∧
    convertFontWeight ("Oblique") = jint 400 ∧
    convertFontWeight ("Light SemiBold") = jint 300 := by
  refine ⟨?_, by decide, by decide, by decide, by decide, by decide⟩
  intro s q h1 h2
  simp [convertFontWeight, h1, h2]

/-- C4 witness: the numeric branch of the amended theorem at the concrete
    style string 42. -/
theorem c4_font_weight_vocabulary_witness :
    convertFontWeight ("42") = jint 42 :=
  c4_font_weight_vocabulary.1 ("42") (jint 42) (by decide) (by decide)

/-- C5 counterexample: a non-text node carrying a vector asset AND a child
    list, compiled by generateNodeComponent, emits both the asset markup
    and the recursively generated child markup (the child key node_1 and
    its width appear), refuting the claim that descendants of an asset
    leaf are never emitted. -/
theorem c5_asset_children_also_emitted :
    containsStr (generateComponentCode004 [c5Root] ("Icon")) ("dangerouslySetInnerHTML") = true ∧
    containsStr (generateComponentCode004 [c5Root] ("Icon")) ("node_1") = true ∧
    containsStr (generateComponentCode004 [c5Root] ("Icon")) ("width: \x27123px\x27") = true := by
  decide

/-- C5 amended: in the generateElement compiler of server/index.js a
    non-text node that carries a pre-rendered asset renders identically
    with or without its children: the asset branch never recurses, so the
    subtree is suppressed there. -/
theorem c5_generateElement_asset_leaf :
    ∀ (d : NodeData) (cs : NodeList), (d.type == ("TEXT")) = false →
      (truthyS d.image || truthyS d.svg || truthyS d.svgBase64) = true →
      generateElement (.node d cs) = generateElement (.node d .nil) := by
  intro d cs h1 h2
  cases hv : truthyB d.visible <;> simp [generateElement, hv, h1, h2]

/-- C5 witness: the asset-leaf theorem applied to the concrete asset node
    with one child. -/
theorem c5_generateElement_asset_leaf_witness :
    generateElement (.node c5AssetData (.cons c5Child .nil))
      = generateElement (.node c5AssetData .nil) :=
  c5_generateElement_asset_leaf c5AssetData (.cons c5Child .nil) (by decide) (by decide)

/-- C7 counterexample: for a visible drop shadow with no color of its own
    the MCP compiler emits rgba(0, 0, 0, 0.25), not the claimed translucent
    black at 50 percent alpha; with two visible drop shadows it emits both
    joined, not the first only; and the server/index.js compiler turns the
    absent color into the word transparent, again not translucent black. -/
theorem c7_shadow_defaults_counterexample :
    getEffectStyles [c7NoColorShadow]
      = [(("boxShadow"), StyleVal.str ("1px 2px 4px rgba(0, 0, 0, 0.25)"))] ∧
    ¬(getEffectStyles [c7NoColorShadow]
      = [(("boxShadow"), StyleVal.str ("1px 2px 4px rgba(0, 0, 0, 0.5)"))]) ∧
    getEffectStyles [c7NoColorShadow, c7Shadow2]
      = [(("boxShadow"),
          StyleVal.str ("1px 2px 4px rgba(0, 0, 0, 0.25), 3px 5px 9px rgba(0, 0, 0, 0.25)"))] ∧
    getStyle (getCommonStyles c7NodeJs) ("boxShadow")
      = some (StyleVal.str ("1px 2px 4px transparent")) := by
  decide

/-- C9 counterexample: an empty root sequence is not rejected by the
    /generate-component handler: it answers success, and the component it
    generates contains no node markup at all (no key attribute), so the
    request silently succeeds with empty output. -/
theorem c9_empty_payload_not_rejected :
    (handleGenerateComponent (some [])).isOk = true ∧
    containsStr (generateComponentCode004 [] ("FigmaComponent")) ("key=") = false := by
  decide

/-- C9 amended: a missing payload is rejected synchronously with a
    validation error and generation does not run; but an empty root
    sequence passes the falsy-only check of /generate-component and yields
    a success response around an empty component, while /api/generate
    throws on the empty sequence and answers a caught server error. -/
theorem c9_validation_behavior :
    handleGenerateComponent none = GenResponse.badRequest ("No data provided") ∧
    handleGenerateComponent (some [])
      = GenResponse.ok ("FigmaComponent") (generateComponentCode004 [] ("FigmaComponent")) ∧
    handleApiGenerate [] = GenResponse.serverError :=
  ⟨rfl, rfl, rfl⟩

/-- Replacing one character distributes over concatenation. -/
theorem replaceChar_append (c : Char) (rep a b : List Char) :
    replaceChar c rep (a ++ b) = replaceChar c rep a ++ replaceChar c rep b := by
  induction a with
  | nil => rfl
  | cons x xs ih => simp [replaceChar, ih]

/-- The JSX escaping distributes over concatenation. -/
theorem escapeJSXTextL_append (a b : List Char) :
    escapeJSXTextL (a ++ b) = escapeJSXTextL a ++ escapeJSXTextL b := by
  simp [escapeJSXTextL, replaceChar_append]

/-- A head character other than a backslash passes through the unescaper. -/
theorem jsUnescapeL_cons_ne (x : Char) (t : List Char) (hb : (x == chBS) = false) :
    jsUnescapeL (x :: t) = x :: jsUnescapeL t := by
  cases t <;> simp [jsUnescapeL, hb]

/-- Unescaping inverts the JSX escaping, character list level. -/
theorem jsUnescapeL_escapeJSXTextL (l : List Char) :
    jsUnescapeL (escapeJSXTextL l) = l := by
  induction l with
  | nil => rfl
  | cons x xs ih =>
    have hsplit : escapeJSXTextL (x :: xs) = escapeJSXTextL [x] ++ escapeJSXTextL xs := by
      rw [← List.singleton_append, escapeJSXTextL_append]
    rw [hsplit]
    by_cases h1 : x = chBS
    · subst h1
      have e1 : escapeJSXTextL [chBS] = [chBS, chBS] := by decide
      have hb : (chBS == chBS) = true := by decide
      have hn : (chBS == 'n') = false := by decide
      have hr : (chBS == 'r') = false := by decide
      have ht : (chBS == 't') = false := by decide
      rw [e1]
      simp [jsUnescapeL, hb, hn, hr, ht, ih]
    · by_cases h2 : x = chSQ
      · subst h2
        have e1 : escapeJSXTextL [chSQ] = [chBS, chSQ] := by decide
        have hb : (chBS == chBS) = true := by decide
        have hn : (chSQ == 'n') = false := by decide
        have hr : (chSQ == 'r') = false := by decide
        have ht : (chSQ == 't') = false := by decide
        rw [e1]
        simp [jsUnescapeL, hb, hn, hr, ht, ih]
      · by_cases h3 : x = chLF
        · subst h3
          have e1 : escapeJSXTextL [chLF] = [chBS, 'n'] := by decide
          have hb : (chBS == chBS) = true := by decide
          have hn : (('n' : Char) == 'n') = true := by decide
          rw [e1]
          simp [jsUnescapeL, hb, hn, ih, chLF]
        · by_cases h4 : x = chCR
          · subst h4
            have e1 : escapeJSXTextL [chCR] = [chBS, 'r'] := by decide
            have hb : (chBS == chBS) = true := by decide
            have hn : (('r' : Char) == 'n') = false := by decide
            have hr : (('r' : Char) == 'r') = true := by decide
            rw [e1]
            simp [jsUnescapeL, hb, hn, hr, ih, chCR]
          · by_cases h5 : x = chTab
            · subst h5
              have e1 : escapeJSXTextL [chTab] = [chBS, 't'] := by decide
              have hb : (chBS == chBS) = true := by decide
              have hn : (('t' : Char) == 'n') = false := by decide
              have hr : (('t' : Char) == 'r') = false := by decide
              have ht : (('t' : Char) == 't') = true := by decide
              rw [e1]
              simp [jsUnescapeL, hb, hn, hr, ht, ih, chTab]
            · have hb : (x == chBS) = false := beq_eq_false_iff_ne.mpr h1
              have hq : (x == chSQ) = false := beq_eq_false_iff_ne.mpr h2
              have hlf : (x == chLF) = false := beq_eq_false_iff_ne.mpr h3
              have hcr : (x == chCR) = false := beq_eq_false_iff_ne.mpr h4
              have htb : (x == chTab) = false := beq_eq_false_iff_ne.mpr h5
              have e1 : escapeJSXTextL [x] = [x] := by
                simp [escapeJSXTextL, replaceChar, hb, hq, hlf, hcr, htb]
              rw [e1]
              rw [List.singleton_append, jsUnescapeL_cons_ne x _ hb, ih]

/-- C6: escaping a literal text string for the single-quoted JSX expression
    (backslash, quote, newline, carriage return, tab) and unescaping the
    result by those same literal rules reproduces the original string
    exactly, for every string; the escaping is therefore lossless and
    injective. -/
theorem c6_escape_roundtrip : ∀ s : String, jsUnescape (escapeJSXText (some s)) = s := by
  intro s
  cases hEmpty : s == ("") with
  | true =>
    have hs : s = ("") := eq_of_beq hEmpty
    subst hs
    rfl
  | false =>
    have h1 : jsUnescape (escapeJSXText (some s))
        = String.mk (jsUnescapeL (escapeJSXTextL s.toList)) := by
      simp [escapeJSXText, hEmpty, jsUnescape]
    rw [h1, jsUnescapeL_escapeJSXTextL]
    rfl

/-- C7 amended: server/index.js derives the box shadow from the FIRST
    visible drop shadow only (the result is that shadow's string, throw
    included, independent of later effects); when that first shadow has no
    offset the unguarded shadow.offset.x read throws, producing no style
    map at all; when it has an offset but no color, the emitted color is
    the word transparent, not translucent black.  The MCP compiler instead
    joins EVERY visible drop shadow and defaults an absent color to
    rgba(0, 0, 0, 0.25), a 25 percent black. -/
theorem c7_shadow_behavior :
    (∀ (e : Effect) (es : List Effect), isVisibleDropShadow e = true →
        shadowStylesJs (e :: es)
          = (shadowStrJs e).map (fun s => [(("boxShadow"), StyleVal.str s)])) ∧
    (∀ (e : Effect) (es : List Effect), isVisibleDropShadow e = true →
        e.offset = none → shadowStylesJs (e :: es) = none) ∧
    (∀ (e : Effect) (off : EffOffset), e.color = none → e.offset = some off →
        shadowStrJs e
          = some (jnumStr off.x ++ ("px ") ++ jnumStr off.y ++ ("px ")
            ++ jnumOptStr e.radius ++ ("px ") ++ ("transparent"))) ∧
    (∀ (e : Effect) (es : List Effect), isVisibleDropShadow e = true →
        getEffectStyles (e :: es)
          = [(("boxShadow"), StyleVal.str (String.intercalate (", ")
              (shadowStr004 e :: (es.filter isVisibleDropShadow).map shadowStr004)))]) ∧
    (∀ e : Effect, e.color = none →
        shadowStr004 e
          = jnumStr ((e.offset.getD ⟨jint 0, jint 0⟩).x) ++ ("px ")
            ++ jnumStr ((e.offset.getD ⟨jint 0, jint 0⟩).y) ++ ("px ")
            ++ jnumStr (e.radius.getD (jint 0)) ++ ("px ") ++ ("rgba(0, 0, 0, 0.25)")) := by
  have hfirst : ∀ (e : Effect) (es : List Effect), isVisibleDropShadow e = true →
      findShadow (e :: es) = some e := by
    intro e es h
    have h' : ((e.type == ("DROP_SHADOW")) && truthyB e.visible) = true := by
      simpa [isVisibleDropShadow] using h
    simp only [findShadow]
    exact List.find?_cons_of_pos _ h'
  refine ⟨?_, ?_, ?_, ?_, ?_⟩
  · intro e es h
    cases hs : shadowStrJs e <;> simp [shadowStylesJs, hfirst e es h, hs]
  · intro e es h hoff
    simp [shadowStylesJs, hfirst e es h, shadowStrJs, hoff]
  · intro e off hc hoff
    simp [shadowStrJs, hoff, hc, rgbToColor]
  · intro e es h
    simp [getEffectStyles, List.filter_cons, h]
  · intro e h
    simp only [shadowStr004, h]

/-- C7 witness: the amended shadow theorem applied to the concrete
    color-less visible drop shadow at offset (1, 2), and the thrown path
    at the concrete shadow with no offset. -/
theorem c7_shadow_behavior_witness :
    shadowStylesJs [c7NoColorShadow]
      = (shadowStrJs c7NoColorShadow).map (fun s => [(("boxShadow"), StyleVal.str s)]) ∧
    shadowStylesJs [c7OffsetlessShadow] = none ∧
    shadowStrJs c7NoColorShadow
      = some (jnumStr (EffOffset.mk (jint 1) (jint 2)).x ++ ("px ")
        ++ jnumStr (EffOffset.mk (jint 1) (jint 2)).y ++ ("px ")
        ++ jnumOptStr c7NoColorShadow.radius ++ ("px ") ++ ("transparent")) ∧
    getEffectStyles [c7NoColorShadow]
      = [(("boxShadow"), StyleVal.str (String.intercalate (", ")
          (shadowStr004 c7NoColorShadow
            :: (([] : List Effect).filter isVisibleDropShadow).map shadowStr004)))] ∧
    shadowStr004 c7NoColorShadow
      = jnumStr ((c7NoColorShadow.offset.getD ⟨jint 0, jint 0⟩).x) ++ ("px ")
        ++ jnumStr ((c7NoColorShadow.offset.getD ⟨jint 0, jint 0⟩).y) ++ ("px ")
        ++ jnumStr (c7NoColorShadow.radius.getD (jint 0)) ++ ("px ")
        ++ ("rgba(0, 0, 0, 0.25)") :=
  ⟨c7_shadow_behavior.1 c7NoColorShadow [] (by decide),
   c7_shadow_behavior.2.1 c7OffsetlessShadow [] (by decide) (by decide),
   c7_shadow_behavior.2.2.1 c7NoColorShadow (EffOffset.mk (jint 1) (jint 2))
     (by decide) (by decide),
   c7_shadow_behavior.2.2.2.1 c7NoColorShadow [] (by decide),
   c7_shadow_behavior.2.2.2.2 c7NoColorShadow (by decide)⟩

mutual
/-- The node generator advances the counter by exactly the subtree size. -/
theorem genNode004_snd : ∀ (nd : Node) (depth : Nat) (px py : JNum) (c : Nat),
    (genNode004 nd depth px py c).2 = c + nodeCount nd
  | .node d cs, depth, px, py, c => by
    have hl := genList004_snd cs (depth + 1)
    dsimp only [genNode004, nodeCount]
    rw [apply_ite (fun p : String × Nat => p.2)]
    dsimp only []
    rw [ite_self]
    simp only [hl]
    omega

/-- The children generator advances the counter by exactly the forest
    size. -/
theorem genList004_snd : ∀ (l : NodeList) (depth : Nat) (px py : JNum) (c : Nat),
    (genList004 l depth px py c).2 = c + nodeCountList l
  | .nil, _, _, _, c => by simp [genList004, nodeCountList]
  | .cons n rest, depth, px, py, c => by
    have h1 := genNode004_snd n depth px py c
    have h2 := genList004_snd rest depth px py
    simp only [genList004, nodeCountList]
    simp only [h2, h1]
    omega
end

/-- The root generator advances the counter by the payload size. -/
theorem genRoots004_snd : ∀ (data : List Node) (c : Nat),
    (genRoots004 data c).2 = c + listNodeCount data
  | [], c => by simp [genRoots004, listNodeCount]
  | comp :: rest, c => by
    have h1 := genNode004_snd comp 0
    have h2 := genRoots004_snd rest
    simp only [genRoots004, listNodeCount]
    simp only [h2, h1]
    omega

/-- C8: compilation is a function of the payload and name alone.  The
    first conjunct pins the per-call fresh counter: every call computes
    exactly what a counter-threading run started at 0 computes, whatever
    state earlier requests left behind, so compiling the same tree twice
    with the same component name yields byte-identical output, node
    identifiers included.  The remaining conjuncts are the identifier
    discipline: the counter advances by exactly the subtree size in
    depth-first pre-order, so identifiers are assigned deterministically in
    traversal order. -/
theorem c8_compile_deterministic :
    (∀ (data : List Node) (name : String),
        generateComponentCode004 data name = generateComponentCode004From 0 data name) ∧
    (∀ (nd : Node) (depth : Nat) (px py : JNum) (c : Nat),
        (genNode004 nd depth px py c).2 = c + nodeCount nd) ∧
    (∀ (data : List Node) (c : Nat), (genRoots004 data c).2 = c + listNodeCount data) :=
  ⟨fun _ _ => rfl, genNode004_snd, genRoots004_snd⟩

mutual
/-- Any font name the traversal adds to the accumulator passed the
    not-a-system-font filter. -/
theorem traverseFonts_inv : ∀ (nd : Node) (acc : List String) (f : String),
    f ∈ traverseFonts nd acc → f ∈ acc ∨ isSystemFont f = false
  | .node d cs, acc, f => by
    intro h
    simp only [traverseFonts] at h
    rcases traverseFontsList_inv cs _ f h with h' | h'
    · split_ifs at h' with hff hcond hcontains
      · exact Or.inl h'
      · rcases List.mem_append.mp h' with hmem | hmem
        · exact Or.inl hmem
        · have hf : f = cleanFontName (d.fontFamily.getD ("")) := List.mem_singleton.mp hmem
          have hsys : isSystemFont (cleanFontName (d.fontFamily.getD (""))) = false := by
            have hc := hcond
            simp only [Bool.and_eq_true, Bool.not_eq_true'] at hc
            exact hc.2
          subst hf
          exact Or.inr hsys
      · exact Or.inl h'
      · exact Or.inl h'
    · exact Or.inr h'

/-- The list version of the traversal invariant. -/
theorem traverseFontsList_inv : ∀ (l : NodeList) (acc : List String) (f : String),
    f ∈ traverseFontsList l acc → f ∈ acc ∨ isSystemFont f = false
  | .nil, acc, f => by
    intro h
    exact Or.inl (by simpa [traverseFontsList] using h)
  | .cons n rest, acc, f => by
    intro h
    simp only [traverseFontsList] at h
    rcases traverseFontsList_inv rest _ f h with h' | h'
    · rcases traverseFonts_inv n acc f h' with h'' | h''
      · exact Or.inl h''
      · exact Or.inr h''
    · exact Or.inr h'
end

/-- C10: the system-font denylist is matched by case-insensitive substring
    containment (any denylisted name occurring anywhere inside the family
    name marks it as a system font), every font the extractor returns is a
    non-system font, and in particular Roboto Slab, which contains roboto,
    is classified as a system font and thus never requested. -/
theorem c10_system_font_exclusion :
    (∀ (name sys : String), sys ∈ systemFonts →
        containsStr (lowerStr name) (lowerStr sys) = true → isSystemFont name = true) ∧
    (∀ (data : NodeList) (f : String), f ∈ extractFontsFromData data →
        isSystemFont f = false) ∧
    isSystemFont ("Roboto Slab") = true := by
  refine ⟨?_, ?_, by decide⟩
  · intro name sys hmem hc
    exact List.any_eq_true.mpr ⟨sys, hmem, hc⟩
  · intro data f h
    rcases traverseFontsList_inv data [] f h with h' | h'
    · exact absurd h' (List.not_mem_nil f)
    · exact h'

/-- C10 witness: the containment direction at Roboto Slab against the
    denylisted roboto, and the exclusion direction at a concrete payload
    carrying CustomFont. -/
theorem c10_system_font_exclusion_witness :
    isSystemFont ("Roboto Slab") = true ∧ isSystemFont ("CustomFont") = false :=
  ⟨c10_system_font_exclusion.1 ("Roboto Slab") ("roboto") (by decide) (by decide),
   c10_system_font_exclusion.2.1 c10Tree ("CustomFont") (by decide)⟩

end FigmaGen
